import Mathlib

/-
Shallow embedding of the Cold Mail Generator core (src/app/portfolio.py,
src/app/chains.py, src/app/main.py).  External collaborators (the web
loader, the LLM completion endpoint, the chroma vector index) are
modelled as explicit function parameters; Python exceptions become an
explicit error type threaded through `Except`.
-/

namespace ColdMail

/-- Python exception classes that the code raises or catches, carrying the
message that `str(e)` would produce. -/
inductive Exc where
  | valueError (msg : String)
  | connectionError (msg : String)
  | outputParserError (msg : String)
  | otherError (msg : String)
  deriving DecidableEq, Repr

/-- Embeds `str(e)` applied to an exception. -/
def excMsg : Exc → String
  | .valueError m => m
  | .connectionError m => m
  | .outputParserError m => m
  | .otherError m => m

/-- Embeds Python `str.strip()`: drops leading and trailing whitespace.
Written by structural recursion over the character list so that it
evaluates inside the kernel. -/
def pyStrip (s : String) : String :=
  ⟨((s.data.dropWhile Char.isWhitespace).reverse.dropWhile Char.isWhitespace).reverse⟩

/-- Embeds Python `str.lower()`. -/
def pyLower (s : String) : String :=
  ⟨s.data.map Char.toLower⟩

/-- Python values that can appear in a job dictionary: a string, a list of
strings (the skills field), or None.  Non-list values matter because
`Portfolio.query_links` checks `isinstance(skills, list)`. -/
inductive PyVal where
  | str (s : String)
  | list (xs : List String)
  | pynone
  deriving DecidableEq, Repr

/-- A job record extracted by the LLM: a Python dict from keys to values. -/
abbrev Job := List (String × PyVal)

/-- Embeds `job.get(key, dflt)`. -/
def jobGet (job : Job) (key : String) (dflt : PyVal) : PyVal :=
  match job.lookup key with
  | some v => v
  | none => dflt

/-- One row of the portfolio CSV (columns `Techstack` and `Links`),
already stringified as `str(row["Techstack"])` / `str(row["Links"])` are. -/
structure Row where
  techstack : String
  links : String
  deriving DecidableEq, Repr

/-- One record stored in the chroma collection by `collection.add`:
document text plus the `{"links": ...}` metadata.  The freshly generated
uuid is not modelled, no claim concerns ids. -/
structure IndexRecord where
  document : String
  links : String
  deriving DecidableEq, Repr

/-- One metadata dictionary returned by the vector index. -/
structure Metadata where
  links : String
  deriving DecidableEq, Repr

/-- Result dictionary of `collection.query`; `metadatas` is read with
`results.get("metadatas", [])`, so it is optional. -/
structure QueryRes where
  metadatas : Option (List Metadata)
  deriving DecidableEq, Repr

/-- One document returned by the web loader. -/
structure Doc where
  pageContent : String
  deriving DecidableEq, Repr

/-- What the JSON parse of the LLM output can yield: a JSON array of
objects, or a single non-array value. -/
inductive JsonVal where
  | list (xs : List Job)
  | notList (j : Job)
  deriving DecidableEq, Repr

/-! ## portfolio.py -/

/-- Embeds `Portfolio._add_item_to_collection` (portfolio.py lines
145-172).  `addOk techstack links` says whether the underlying
`collection.add` call succeeds; its failure is caught and reported as
`false`.  Returns the new collection contents and the boolean the method
returns. -/
def add_item_to_collection (addOk : String → String → Bool)
    (coll : List IndexRecord) (row : Row) : List IndexRecord × Bool :=
  let techstack := pyStrip row.techstack
  let links := pyStrip row.links
  if techstack = "" ∨ pyLower techstack = "nan" then
    (coll, false)
  else if addOk techstack links then
    (coll ++ [⟨techstack, links⟩], true)
  else
    (coll, false)

/-- Embeds `Portfolio.load_portfolio` (portfolio.py lines 121-143): a
no-op when `collection.count() > 0`, otherwise adds every CSV row through
`add_item_to_collection`. -/
def load_portfolio (addOk : String → String → Bool) (data : List Row)
    (coll : List IndexRecord) : Except Exc (List IndexRecord) :=
  if coll.length > 0 then
    .ok coll
  else
    .ok (data.foldl (fun c row => (add_item_to_collection addOk c row).fst) coll)

/-- Embeds the list comprehension `[s.strip() for s in skills if s and s.strip()]`
from `Portfolio.query_links`. -/
def validSkills (skills : List String) : List String :=
  skills.filterMap (fun s => if s = "" ∨ pyStrip s = "" then none else some (pyStrip s))

/-- Embeds `Portfolio.query_links` (portfolio.py lines 174-215).
`q` is the external `collection.query` collaborator; any exception it
raises is caught and turned into `[]`.  A non-list or empty `skills`
argument raises ValueError before the try block. -/
def query_links (q : List String → Nat → Except Exc QueryRes)
    (skills : PyVal) (nResults : Nat) : Except Exc (List Metadata) :=
  match skills with
  | .list xs =>
    if xs = [] then
      .error (.valueError "Skills must be a non-empty list")
    else
      let valid := validSkills xs
      if valid = [] then
        .ok []
      else
        match q valid nResults with
        | .ok res => .ok (res.metadatas.getD [])
        | .error _ => .ok []
  | _ => .error (.valueError "Skills must be a non-empty list")

/-! ## chains.py -/

/-- Embeds `Chain._parse_json_response` (chains.py lines 78-97).
`jsonParse` is `JsonOutputParser().parse`; an OutputParserException from
it is re-raised with a fixed message, other exceptions propagate. -/
def parse_json_response (jsonParse : String → Except Exc JsonVal)
    (response_content : String) : Except Exc (List Job) :=
  match jsonParse response_content with
  | .ok (.list xs) => .ok xs
  | .ok (.notList j) => .ok [j]
  | .error (.outputParserError _) =>
      .error (.outputParserError "Context too big. Unable to parse jobs.")
  | .error e => .error e

/-- Embeds `Chain.extract_jobs` (chains.py lines 99-124).  `invoke` is
the prompt-plus-LLM pipeline returning the response content. -/
def extract_jobs (invoke : String → Except Exc String)
    (jsonParse : String → Except Exc JsonVal)
    (cleaned_text : String) : Except Exc (List Job) :=
  if cleaned_text = "" ∨ pyStrip cleaned_text = "" then
    .error (.valueError "Cleaned text cannot be empty")
  else
    match invoke cleaned_text with
    | .error e => .error e
    | .ok content => parse_json_response jsonParse content

/-- Embeds `Chain.write_mail` (chains.py lines 126-151).  `invoke` is the
prompt-plus-LLM pipeline applied to the job rendering and the link list;
the method returns `response.content` unchanged. -/
def write_mail (invoke : Job → List Metadata → Except Exc String)
    (job : Job) (links : List Metadata) : Except Exc String :=
  if job = [] then
    .error (.valueError "Job dictionary cannot be empty")
  else
    invoke job links

/-! ## main.py -/

/-- All external collaborators of the pipeline, plus the CSV data held by
the Portfolio instance. -/
structure Collabs where
  clean : String → String
  loader : String → Except Exc (List Doc)
  invokeExtract : String → Except Exc String
  jsonParse : String → Except Exc JsonVal
  invokeMail : Job → List Metadata → Except Exc String
  collQuery : List IndexRecord → List String → Nat → Except Exc QueryRes
  addOk : String → String → Bool
  rows : List Row

/-- Mutable state of an EmailGenerator: its `_portfolio_loaded` flag and
the contents of the chroma collection. -/
structure PortfolioState where
  loaded : Bool
  records : List IndexRecord
  deriving Repr

/-- Embeds `EmailGenerator._validate_url` (main.py lines 41-52). -/
def validate_url (url : String) : Except Exc Unit :=
  if url = "" ∨ pyStrip url = "" then
    .error (.valueError "URL cannot be empty")
  else
    .ok ()

/-- Embeds `EmailGenerator._load_documents` (main.py lines 46-52). -/
def load_documents (loader : String → Except Exc (List Doc))
    (url : String) : Except Exc (List Doc) :=
  match loader url with
  | .error e => .error e
  | .ok docs =>
    if docs = [] then
      .error (.valueError "No content could be loaded from the URL")
    else
      .ok docs

/-- Embeds `EmailGenerator.load_web_content` (main.py lines 54-78): URL
validation happens outside the try block, everything raised inside it is
wrapped into a ConnectionError. -/
def load_web_content (clean : String → String)
    (loader : String → Except Exc (List Doc))
    (url : String) : Except Exc String :=
  match validate_url url with
  | .error e => .error e
  | .ok _ =>
    match load_documents loader url with
    | .error e =>
        .error (.connectionError ("Unable to fetch content from URL: " ++ excMsg e))
    | .ok docs =>
      match docs with
      | [] => .error (.connectionError "Unable to fetch content from URL: list index out of range")
      | d :: _ => .ok (clean d.pageContent)

/-- Embeds `EmailGenerator._ensure_portfolio_loaded` (main.py lines
80-85). -/
def ensure_portfolio_loaded (c : Collabs) (st : PortfolioState) :
    Except Exc PortfolioState :=
  if st.loaded then
    .ok st
  else
    match load_portfolio c.addOk c.rows st.records with
    | .error e => .error e
    | .ok recs => .ok ⟨true, recs⟩

/-- The body of the try block in `EmailGenerator._generate_single_email`
(main.py lines 89-94): query links for the skills of the job, then write
the mail. -/
def single_email_attempt (c : Collabs) (st : PortfolioState) (job : Job) :
    Except Exc String :=
  match query_links (c.collQuery st.records) (jobGet job "skills" (.list [])) 2 with
  | .error e => .error e
  | .ok links => write_mail c.invokeMail job links

/-- Embeds `EmailGenerator._generate_single_email` (main.py lines 87-97):
any exception from the attempt is caught and turned into the formatted
placeholder string. -/
def generate_single_email (c : Collabs) (st : PortfolioState) (job : Job) :
    String :=
  match single_email_attempt c st job with
  | .ok email => email
  | .error e => "Error generating email: " ++ excMsg e

/-- Embeds `EmailGenerator.generate_emails` (main.py lines 99-121). -/
def generate_emails (c : Collabs) (st : PortfolioState) (jobs : List Job) :
    Except Exc (List String × PortfolioState) :=
  if jobs = [] then
    .error (.valueError "No jobs found to generate emails")
  else
    match ensure_portfolio_loaded c st with
    | .error e => .error e
    | .ok st2 => .ok (jobs.map (generate_single_email c st2), st2)

/-- Embeds `EmailGenerator.process_url` (main.py lines 123-143). -/
def process_url (c : Collabs) (st : PortfolioState) (url : String) :
    Except Exc (List String × PortfolioState) :=
  match load_web_content c.clean c.loader url with
  | .error e => .error e
  | .ok content =>
    match extract_jobs c.invokeExtract c.jsonParse content with
    | .error e => .error e
    | .ok jobs =>
      if jobs = [] then
        .error (.valueError "No job postings found at the provided URL")
      else
        generate_emails c st jobs

/-- Classifies the skills values that make `query_links` raise ValueError
before touching the index: anything that is not a Python list, and the
empty list. -/
def isBadSkills : PyVal → Bool
  | .list xs => decide (xs = [])
  | _ => true

/-! ## Helper lemmas and concrete fixtures -/

/-- A sample extracted job record with a single non-blank skill. -/
def demoJob : Job := [("skills", PyVal.list ["Python"])]

/-- A bundle of well-behaved collaborators used to instantiate theorems
at concrete inputs. -/
def demoCollabs : Collabs where
  clean := id
  loader := fun _ => .ok [⟨"page text"⟩]
  invokeExtract := fun _ => .ok "raw json"
  jsonParse := fun _ => .ok (.list [demoJob])
  invokeMail := fun _ _ => .ok "email text"
  collQuery := fun _ _ _ => .ok ⟨some []⟩
  addOk := fun _ _ => true
  rows := []

theorem load_portfolio_total (addOk : String → String → Bool)
    (data : List Row) (coll : List IndexRecord) :
    ∃ recs, load_portfolio addOk data coll = .ok recs := by
  unfold load_portfolio
  by_cases h : coll.length > 0
  · exact ⟨coll, by simp [h]⟩
  · exact ⟨data.foldl (fun c row => (add_item_to_collection addOk c row).fst) coll,
      by simp [h]⟩

theorem ensure_portfolio_loaded_total (c : Collabs) (st : PortfolioState) :
    ∃ st2, ensure_portfolio_loaded c st = .ok st2 := by
  unfold ensure_portfolio_loaded
  by_cases h : st.loaded
  · exact ⟨st, by simp [h]⟩
  · obtain ⟨recs, hr⟩ := load_portfolio_total c.addOk c.rows st.records
    exact ⟨⟨true, recs⟩, by simp [h, hr]⟩

/-! ## Claim theorems -/

/-- C3: KnowledgeStore.load is idempotent: running load a second time on
the collection state produced by the first run gives the same final
collection (hence the same record count) as running it once, and load is
a no-op whenever the current record count is greater than zero. -/
theorem load_portfolio_idempotent (addOk : String → String → Bool)
    (data : List Row) (coll : List IndexRecord) :
    (load_portfolio addOk data coll).bind (load_portfolio addOk data)
        = load_portfolio addOk data coll ∧
    (coll.length > 0 → load_portfolio addOk data coll = .ok coll) := by
  constructor
  · unfold load_portfolio
    by_cases h : coll.length > 0
    · simp [h, Except.bind]
    · have hc : coll = [] := List.length_eq_zero.mp (Nat.eq_zero_of_not_pos h)
      subst hc
      simp only [h, if_false, Except.bind]
      by_cases hr : (data.foldl (fun c row => (add_item_to_collection addOk c row).fst) []).length > 0
      · simp [hr]
      · have : data.foldl (fun c row => (add_item_to_collection addOk c row).fst) [] = [] :=
          List.length_eq_zero.mp (Nat.eq_zero_of_not_pos hr)
        simp [hr, this]
  · intro h
    unfold load_portfolio
    simp [h]

/-- C3 witness: a one-record collection is left unchanged by load. -/
theorem load_portfolio_idempotent_witness :
    load_portfolio (fun _ _ => true) [] [⟨"Python", "l"⟩] = .ok [⟨"Python", "l"⟩] :=
  (load_portfolio_idempotent (fun _ _ => true) [] [⟨"Python", "l"⟩]).2 (by decide)

/-- C2 counterexample: query_links applied to the empty skills list does
not return an empty sequence; it raises ValueError, for any behaviour of
the underlying index (shown here at one concrete index stub). -/
theorem query_links_empty_list_cex :
    query_links (fun _ _ => .ok ⟨some []⟩) (.list []) 2
      = .error (.valueError "Skills must be a non-empty list") := rfl

/-- C2 amended: query_links raises ValueError on the empty skills list,
while a non-empty list of only blank strings yields an empty sequence,
independently of the underlying index collaborator (so no query is
issued to it). -/
theorem query_links_blank_contract (q : List String → Nat → Except Exc QueryRes) :
    query_links q (.list []) 2 = .error (.valueError "Skills must be a non-empty list") ∧
    (∀ xs : List String, xs ≠ [] → (∀ s ∈ xs, pyStrip s = "") →
      query_links q (.list xs) 2 = .ok []) := by
  constructor
  · rfl
  · intro xs hne hblank
    unfold query_links
    have hv : validSkills xs = [] := by
      unfold validSkills
      rw [List.filterMap_eq_nil_iff]
      intro s hs
      simp [hblank s hs]
    simp [hne, hv]

/-- C2 witness: the blank-strings input from the claim returns an empty
sequence. -/
theorem query_links_blank_contract_witness :
    query_links (fun _ _ => .ok ⟨some []⟩) (.list ["", "  "]) 2 = .ok [] :=
  (query_links_blank_contract (fun _ _ => .ok ⟨some []⟩)).2 ["", "  "] (by decide) (by decide)

/-- C9: when the skills list contains at least one non-blank string and
the similarity query against the index raises, query_links catches the
failure and returns an empty sequence instead of propagating it. -/
theorem query_links_degrades_to_empty
    (q : List String → Nat → Except Exc QueryRes) (xs : List String)
    (nResults : Nat) (e : Exc)
    (hvalid : validSkills xs ≠ [])
    (hq : q (validSkills xs) nResults = .error e) :
    query_links q (.list xs) nResults = .ok [] := by
  have hxs : xs ≠ [] := by
    intro h
    subst h
    exact hvalid rfl
  unfold query_links
  simp [hxs, hvalid, hq]

/-- C9 witness: an always-raising index stub degrades to an empty result
for the skill list containing Python. -/
theorem query_links_degrades_to_empty_witness :
    query_links (fun _ _ => .error (.otherError "boom")) (.list ["Python"]) 2 = .ok [] :=
  query_links_degrades_to_empty (fun _ _ => .error (.otherError "boom"))
    ["Python"] 2 (.otherError "boom") (by decide) rfl

/-- C7 counterexample: with an index whose insert always fails and a CSV
holding one valid entry, load of an initially empty collection returns
successfully with no record added, instead of failing; the insert for
that entry indeed failed (the add helper reports false). -/
theorem load_portfolio_insert_failure_cex :
    load_portfolio (fun _ _ => false) [⟨"Python", "l"⟩] [] = .ok [] ∧
    add_item_to_collection (fun _ _ => false) [] ⟨"Python", "l"⟩ = ([], false) :=
  ⟨rfl, rfl⟩

/-- C7 amended: when the underlying index insert fails for a portfolio
entry, that per-item failure is caught and the entry is skipped (the add
helper leaves the collection unchanged and reports false), and load
completes without error. -/
theorem load_portfolio_skips_failed_inserts
    (addOk : String → String → Bool) (data : List Row)
    (coll : List IndexRecord) (row : Row)
    (hfail : addOk (pyStrip row.techstack) (pyStrip row.links) = false) :
    add_item_to_collection addOk coll row = (coll, false) ∧
    ∃ recs, load_portfolio addOk data coll = .ok recs := by
  refine ⟨?_, load_portfolio_total addOk data coll⟩
  unfold add_item_to_collection
  by_cases h : pyStrip row.techstack = "" ∨ pyLower (pyStrip row.techstack) = "nan"
  · simp [h]
  · simp [h, hfail]

/-- C7 witness: concrete failing insert on an empty collection. -/
theorem load_portfolio_skips_failed_inserts_witness :
    add_item_to_collection (fun _ _ => false) [] ⟨"Python", "l"⟩ = ([], false) ∧
    ∃ recs, load_portfolio (fun _ _ => false) [⟨"Python", "l"⟩] [] = .ok recs :=
  load_portfolio_skips_failed_inserts (fun _ _ => false) [⟨"Python", "l"⟩] [] ⟨"Python", "l"⟩ rfl

/-- C8 counterexample: write_mail hands back the raw model output with
surrounding whitespace intact, which differs from the trimmed text the
claim promises. -/
theorem write_mail_no_trim_cex :
    write_mail (fun _ _ => .ok "  hello  ") [("role", PyVal.str "Dev")] [] = .ok "  hello  " ∧
    ("  hello  " : String) ≠ pyStrip "  hello  " :=
  ⟨rfl, by decide⟩

/-- C8 amended: for every non-empty job and every links sequence,
write_mail returns the LLM collaborator raw text output unchanged (no
trimming), performing no structural validation on the email content. -/
theorem write_mail_returns_raw (invoke : Job → List Metadata → Except Exc String)
    (job : Job) (links : List Metadata) (s : String)
    (hjob : job ≠ []) (hinv : invoke job links = .ok s) :
    write_mail invoke job links = .ok s := by
  unfold write_mail
  simp [hjob, hinv]

/-- C8 witness: a non-empty job and a stub model returning padded text. -/
theorem write_mail_returns_raw_witness :
    write_mail (fun _ _ => .ok "  hello  ") demoJob [] = .ok "  hello  " :=
  write_mail_returns_raw (fun _ _ => .ok "  hello  ") demoJob [] "  hello  " (by decide) rfl

/-- C6: load_web_content fails with ValueError (InvalidInput) exactly
when the url is empty after trimming; for a non-blank url, a raising
loader or an empty document list yields a ConnectionError wrapping the
underlying message, and a non-empty document list yields the first
document text passed through the cleaner. -/
theorem load_web_content_contract (clean : String → String)
    (loader : String → Except Exc (List Doc)) (url : String) :
    (pyStrip url = "" →
      load_web_content clean loader url = .error (.valueError "URL cannot be empty")) ∧
    (∀ msg, load_web_content clean loader url = .error (.valueError msg) →
      pyStrip url = "") ∧
    (pyStrip url ≠ "" →
      (∀ e, loader url = .error e →
        load_web_content clean loader url
          = .error (.connectionError ("Unable to fetch content from URL: " ++ excMsg e))) ∧
      (loader url = .ok [] →
        load_web_content clean loader url
          = .error (.connectionError
              ("Unable to fetch content from URL: " ++ "No content could be loaded from the URL"))) ∧
      (∀ d ds, loader url = .ok (d :: ds) →
        load_web_content clean loader url = .ok (clean d.pageContent))) := by
  have hcond : pyStrip url = "" ↔ (url = "" ∨ pyStrip url = "") := by
    constructor
    · exact Or.inr
    · rintro (h | h)
      · subst h
        rfl
      · exact h
  refine ⟨?_, ?_, ?_⟩
  · intro hu
    unfold load_web_content validate_url
    rw [if_pos (hcond.mp hu)]
  · intro msg hmsg
    by_cases hu : pyStrip url = ""
    · exact hu
    · exfalso
      have hc : ¬(url = "" ∨ pyStrip url = "") := fun h => hu (hcond.mpr h)
      cases hl : loader url with
      | error e =>
        simp [load_web_content, validate_url, load_documents, hc, hl] at hmsg
      | ok docs =>
        cases docs with
        | nil =>
          simp [load_web_content, validate_url, load_documents, hc, hl, excMsg] at hmsg
        | cons d ds =>
          simp [load_web_content, validate_url, load_documents, hc, hl] at hmsg
  · intro hu
    have hc : ¬(url = "" ∨ pyStrip url = "") := fun h => hu (hcond.mpr h)
    refine ⟨?_, ?_, ?_⟩
    · intro e he
      simp [load_web_content, validate_url, load_documents, hc, he]
    · intro he
      simp [load_web_content, validate_url, load_documents, hc, he, excMsg]
    · intro d ds he
      simp [load_web_content, validate_url, load_documents, hc, he]

/-- C6 witness: a non-blank url and a loader returning one document give
the cleaned first document text. -/
theorem load_web_content_contract_witness :
    load_web_content id (fun _ => .ok [⟨"page text"⟩]) "u" = .ok "page text" :=
  ((load_web_content_contract id (fun _ => .ok [⟨"page text"⟩]) "u").2.2 (by decide)).2.2
    ⟨"page text"⟩ [] rfl

/-- C4: when the cleaned text is non-blank and the LLM returns a
response, extract_jobs wraps a single non-array JSON value into a
one-element list, and returns a parsed JSON array as-is, the empty array
included. -/
theorem extract_jobs_json_shapes (invoke : String → Except Exc String)
    (jsonParse : String → Except Exc JsonVal) (cleaned content : String)
    (hne : pyStrip cleaned ≠ "") (hinv : invoke cleaned = .ok content) :
    (∀ j : Job, jsonParse content = .ok (.notList j) →
      extract_jobs invoke jsonParse cleaned = .ok [j]) ∧
    (∀ xs : List Job, jsonParse content = .ok (.list xs) →
      extract_jobs invoke jsonParse cleaned = .ok xs) := by
  have hc : ¬(cleaned = "" ∨ pyStrip cleaned = "") := by
    rintro (h | h)
    · subst h
      exact hne rfl
    · exact hne h
  constructor
  · intro j hj
    simp [extract_jobs, hc, hinv, parse_json_response, hj]
  · intro xs hxs
    simp [extract_jobs, hc, hinv, parse_json_response, hxs]

/-- C4 witness: a stub parse yielding a single object gives a one-element
job list. -/
theorem extract_jobs_json_shapes_witness :
    extract_jobs (fun _ => .ok "raw json") (fun _ => .ok (.notList demoJob)) "page text"
      = .ok [demoJob] :=
  (extract_jobs_json_shapes (fun _ => .ok "raw json") (fun _ => .ok (.notList demoJob))
    "page text" "raw json" (by decide) rfl).1 demoJob rfl

/-- C5: when the fetch succeeds and extraction succeeds with zero jobs,
process_url fails with the dedicated no-jobs ValueError, and does so for
every email-writing collaborator, so writeMail is never consulted for
that request. -/
theorem process_url_zero_jobs (c : Collabs) (st : PortfolioState)
    (url content : String)
    (hfetch : load_web_content c.clean c.loader url = .ok content)
    (hext : extract_jobs c.invokeExtract c.jsonParse content = .ok []) :
    ∀ m : Job → List Metadata → Except Exc String,
      process_url { c with invokeMail := m } st url
        = .error (.valueError "No job postings found at the provided URL") := by
  intro m
  simp [process_url, hfetch, hext]

/-- C5 witness: a stub extraction returning an empty array makes
process_url fail with the no-jobs error. -/
theorem process_url_zero_jobs_witness :
    process_url
      { { demoCollabs with jsonParse := fun _ => .ok (.list []) } with
          invokeMail := fun _ _ => .ok "ignored" } ⟨false, []⟩ "u"
      = .error (.valueError "No job postings found at the provided URL") :=
  process_url_zero_jobs { demoCollabs with jsonParse := fun _ => .ok (.list []) }
    ⟨false, []⟩ "u" "page text" rfl rfl (fun _ _ => .ok "ignored")

/-- C1: when fetch and extraction succeed with a non-empty job list,
process_url returns exactly one string per job, in job order; the entry
for a job whose generation attempt raises is the formatted error
placeholder, and the other jobs are still processed. -/
theorem process_url_one_string_per_job (c : Collabs) (st : PortfolioState)
    (url content : String) (jobs : List Job)
    (hfetch : load_web_content c.clean c.loader url = .ok content)
    (hext : extract_jobs c.invokeExtract c.jsonParse content = .ok jobs)
    (hne : jobs ≠ []) :
    ∃ out st2, process_url c st url = .ok (out, st2) ∧
      out.length = jobs.length ∧
      (∀ k, out.get? k = (jobs.get? k).map (generate_single_email c st2)) ∧
      (∀ k job e, jobs.get? k = some job →
        single_email_attempt c st2 job = .error e →
        out.get? k = some ("Error generating email: " ++ excMsg e)) := by
  obtain ⟨st2, hst2⟩ := ensure_portfolio_loaded_total c st
  refine ⟨jobs.map (generate_single_email c st2), st2, ?_, by simp, ?_, ?_⟩
  · simp [process_url, hfetch, hext, hne, generate_emails, hst2]
  · intro k
    simp [List.get?_map]
  · intro k job e hjob hatt
    rw [List.get?_map, hjob]
    simp [generate_single_email, hatt]

/-- C1 witness: a pipeline with one extracted job returns one string. -/
theorem process_url_one_string_per_job_witness :
    ∃ out st2, process_url demoCollabs ⟨false, []⟩ "u" = .ok (out, st2) ∧
      out.length = [demoJob].length ∧
      (∀ k, out.get? k = ([demoJob].get? k).map (generate_single_email demoCollabs st2)) ∧
      (∀ k job e, [demoJob].get? k = some job →
        single_email_attempt demoCollabs st2 job = .error e →
        out.get? k = some ("Error generating email: " ++ excMsg e)) :=
  process_url_one_string_per_job demoCollabs ⟨false, []⟩ "u" "page text" [demoJob]
    rfl rfl (by decide)

theorem single_email_attempt_bad_skills (c : Collabs) (st : PortfolioState)
    (job : Job) (h : isBadSkills (jobGet job "skills" (.list [])) = true) :
    single_email_attempt c st job
      = .error (.valueError "Skills must be a non-empty list") := by
  unfold single_email_attempt
  cases hv : jobGet job "skills" (.list []) with
  | str s => simp [query_links]
  | pynone => simp [query_links]
  | list xs =>
    rw [hv] at h
    simp [isBadSkills] at h
    simp [query_links, h]

/-- C10: in a batch, every job whose skills entry is missing, not a list,
or an empty list gets the formatted placeholder built from the ValueError
of the store query, while every output entry is computed from its own job
only, leaving the other jobs of the batch unaffected. -/
theorem bad_skills_yield_placeholder (c : Collabs) (st : PortfolioState)
    (jobs : List Job) (hne : jobs ≠ []) :
    ∃ out st2, generate_emails c st jobs = .ok (out, st2) ∧
      (∀ k job, jobs.get? k = some job →
        isBadSkills (jobGet job "skills" (.list [])) = true →
        out.get? k = some "Error generating email: Skills must be a non-empty list") ∧
      (∀ k job, jobs.get? k = some job →
        out.get? k = some (generate_single_email c st2 job)) := by
  obtain ⟨st2, hst2⟩ := ensure_portfolio_loaded_total c st
  refine ⟨jobs.map (generate_single_email c st2), st2, ?_, ?_, ?_⟩
  · simp [generate_emails, hne, hst2]
  · intro k job hjob hbad
    rw [List.get?_map, hjob]
    have hatt := single_email_attempt_bad_skills c st2 job hbad
    simp [generate_single_email, hatt, excMsg]
  · intro k job hjob
    rw [List.get?_map, hjob]
    rfl

/-- C10 witness: a batch holding a job without a skills key and a job
with a non-empty skills list. -/
theorem bad_skills_yield_placeholder_witness :
    ∃ out st2,
      generate_emails demoCollabs ⟨false, []⟩ [[("role", PyVal.str "Dev")], demoJob]
        = .ok (out, st2) ∧
      (∀ k job, [[("role", PyVal.str "Dev")], demoJob].get? k = some job →
        isBadSkills (jobGet job "skills" (.list [])) = true →
        out.get? k = some "Error generating email: Skills must be a non-empty list") ∧
      (∀ k job, [[("role", PyVal.str "Dev")], demoJob].get? k = some job →
        out.get? k = some (generate_single_email demoCollabs st2 job)) :=
  bad_skills_yield_placeholder demoCollabs ⟨false, []⟩
    [[("role", PyVal.str "Dev")], demoJob] (by decide)

end ColdMail
